import Mathlib

/-!
Shallow embedding of the DJ setlist generator core
(`src/setlist_generator.py`; the streamlit variant `src/streamlit_app.py`
shares the same `Playlist`/`Track` core verbatim apart from the
`select_first_song` error handling, which is embedded separately).

Modelling conventions: Python floats are rationals (`ℚ`); the sklearn
cosine-similarity collaborator is an abstract function parameter; Python
dict literals are association lists; a raised exception is `Option.none`
(or an explicit `Except` value where the difference between "returned
None" and "raised" matters); `random.choice` is an abstract choice
function parameter.
-/

deriving instance DecidableEq for Except

namespace Setlist

/-- A track as the core reads it: identifier, display name, artists
(each `(artist_name, artist_genres)`), the audio features consumed by the
algorithm, and the derived `camelot_key` attribute (`none` models the
Python value `None`). -/
structure Track where
  track_id : Nat
  track_name : String
  artists : List (String × List String)
  tempo : ℚ
  speechiness : ℚ
  acousticness : ℚ
  instrumentalness : ℚ
  liveness : ℚ
  valence : ℚ
  camelot_key : Option String
deriving DecidableEq, Repr

/-- The `camelot_map` dict literal of `Track.calculate_camelot_key`
(setlist_generator.py lines 170-177), as an association list. -/
def camelot_map : List ((ℤ × ℤ) × String) :=
  [((0, 0), "5A"), ((0, 1), "8B"), ((1, 0), "12A"), ((1, 1), "3B"),
   ((2, 0), "7A"), ((2, 1), "10B"), ((3, 0), "2A"), ((3, 1), "3B"),
   ((4, 0), "9A"), ((4, 1), "12B"), ((5, 0), "4A"), ((5, 1), "7B"),
   ((6, 0), "11A"), ((6, 1), "2B"), ((7, 0), "6A"), ((7, 1), "9B"),
   ((8, 0), "1A"), ((8, 1), "4B"), ((9, 0), "8A"), ((9, 1), "11B"),
   ((10, 0), "3A"), ((10, 1), "6B"), ((11, 0), "10A"), ((11, 1), "1B")]

/-- The method `Track.calculate_camelot_key`, i.e.
`camelot_map.get((key, mode), None)`.  A Python `dict.get` with default never raises; it returns the default
`None` on a missing key, so the embedding is a total `Option`-valued
lookup. -/
def calculate_camelot_key (key mode : ℤ) : Option String :=
  List.lookup (key, mode) camelot_map

/-- The error the spec postulates for out-of-range key/mode input. -/
inductive InvalidKeyError
  | invalidKey
deriving DecidableEq, Repr

/-- Exception-level view of `calculate_camelot_key`: the Python body
contains no `raise` at all (`dict.get` returns its default), so every
run returns normally; the embedding makes that explicit so that
"fails with InvalidKeyError" is expressible and refutable. -/
def calculate_camelot_key_run (key mode : ℤ) :
    Except InvalidKeyError (Option String) :=
  Except.ok (calculate_camelot_key key mode)

/-- Python `s[-1]` on a string: its last character (`none` models the
IndexError on the empty string). -/
def strLast (s : String) : Option Char :=
  s.data.getLast?

/-- Python `s[:-1]` on a string: all but the last character. -/
def strDropLast (s : String) : String :=
  ⟨s.data.dropLast⟩

/-- The body of `Track.calculate_key_compatibility_score`
(setlist_generator.py lines 206-241) for two distinct key strings, i.e.
after the `key1 == key2` check has failed.  `int(key1[:-1])` raising
`ValueError` on a non-numeric prefix, and `key1[-1]` raising on an empty
string, are both `none`.  Python `%` on ints agrees with `Int.emod` for
the positive divisor 12. -/
def scoreOfKeys (key1 key2 : String) : Option ℚ :=
  match strLast key1, strLast key2 with
  | some c1, some c2 =>
    -- Relative key
    if c1 ≠ c2 ∧ strDropLast key1 = strDropLast key2 then some (9/10)
    else
      match (strDropLast key1).toNat?, (strDropLast key2).toNat? with
      | some n1, some n2 =>
        let k1 : ℤ := n1
        let k2 : ℤ := n2
        -- Perfect fifth up or down
        if (k1 - k2) % 12 = 7 ∧ c1 = c2 then some (8/10)
        else if (k2 - k1) % 12 = 7 ∧ c1 = c2 then some (8/10)
        -- Perfect fifth up or down to the relative key
        else if (k1 - k2) % 12 = 7 ∧ c1 ≠ c2 then some (7/10)
        else if (k2 - k1) % 12 = 7 ∧ c1 ≠ c2 then some (7/10)
        -- Perfect fourth up or down to the relative key
        else if (k1 - k2) % 12 = 5 ∧ c1 ≠ c2 then some (7/10)
        else if (k2 - k1) % 12 = 5 ∧ c1 ≠ c2 then some (7/10)
        -- Parallel key modulation
        else if strDropLast key1 = strDropLast key2 ∧ c1 ≠ c2 then some (6/10)
        else some 0
      | _, _ => none
  | _, _ => none

/-- The method `Track.calculate_key_compatibility_score`, applied to
the `camelot_key` attributes of the two tracks.  Python checks `key1 == key2` first (this is
how `None == None` also scores 1.0); any subscript of a `None` key
raises, hence `none`. -/
def calculate_key_compatibility_score (key1 key2 : Option String) : Option ℚ :=
  if key1 = key2 then some 1
  else
    match key1, key2 with
    | some k1, some k2 => scoreOfKeys k1 k2
    | _, _ => none

/-- Modelled from the spec (section 4.1): the six-rule compatibility
cascade over wheel labels, first match wins, stated with the vocabulary
of the spec (wheel number and letter).  Used only to compare against
the code function `calculate_key_compatibility_score`. -/
def compatibility_spec (a b : String) : ℚ :=
  match (strDropLast a).toNat?, (strDropLast b).toNat?, strLast a, strLast b with
  | some na, some nb, some la, some lb =>
    if a = b then 1
    else if na = nb ∧ la ≠ lb then 9/10
    else if ((na - nb : ℤ) % 12 = 7 ∨ (nb - na : ℤ) % 12 = 7) ∧ la = lb then 8/10
    else if ((na - nb : ℤ) % 12 = 7 ∨ (nb - na : ℤ) % 12 = 7 ∨
             (na - nb : ℤ) % 12 = 5 ∨ (nb - na : ℤ) % 12 = 5) ∧ la ≠ lb then 7/10
    else if na = nb ∧ la ≠ lb then 6/10
    else 0
  | _, _, _, _ => 0

/-- The 24 wheel labels (12 numbered positions times letters A and B). -/
def validCamelotKeys : List String :=
  ["1A", "2A", "3A", "4A", "5A", "6A", "7A", "8A", "9A", "10A", "11A", "12A",
   "1B", "2B", "3B", "4B", "5B", "6B", "7B", "8B", "9B", "10B", "11B", "12B"]

/-- The audio-descriptor vector `calculate_similarity_scores` reads, in
the fixed feature order of the source. -/
def featureVector (t : Track) : List ℚ :=
  [t.speechiness, t.acousticness, t.instrumentalness, t.liveness, t.valence, t.tempo]

/-- The union of the genre tags of all artists on a track (the Python set
comprehension in `calculate_similarity_scores`). -/
def track_genres (t : Track) : Finset String :=
  ((t.artists.map Prod.snd).flatten).toFinset

/-- The method `Track.calculate_similarity_scores` (lines 181-204).  The sklearn
cosine-similarity collaborator is the abstract parameter `cosine`.  The
genre Jaccard index divides by `len(song1_genres | song2_genres)` with
no guard, so an empty union raises ZeroDivisionError (`none`). -/
def calculate_similarity_scores (cosine : List ℚ → List ℚ → ℚ) (t1 t2 : Track) :
    Option (ℚ × ℚ) :=
  let audio_similarity := cosine (featureVector t1) (featureVector t2)
  let g1 := track_genres t1
  let g2 := track_genres t2
  if (g1 ∪ g2).card = 0 then none
  else some (audio_similarity, ((g1 ∩ g2).card : ℚ) / ((g1 ∪ g2).card : ℚ))

/-- The tie-break similarity of `select_next_song` line 138:
`0.9 * audio_sim + 0.1 * genre_sim`. -/
def similarity_score (cosine : List ℚ → List ℚ → ℚ) (t1 t2 : Track) : Option ℚ :=
  (calculate_similarity_scores cosine t1 t2).map fun p => 9/10 * p.1 + 1/10 * p.2

/-- The `song.key_compatibility_score` attribute stored by the
`for song in filtered_songs` loop (lines 125-127). -/
def key_score (current t : Track) : Option ℚ :=
  calculate_key_compatibility_score current.camelot_key t.camelot_key

/-- Scoring pass over the filtered candidates: pairs each with its
stored score; an exception (a `None` key on exactly one side) aborts the
whole call, hence `none`. -/
def score_songs (current : Track) : List Track → Option (List (Track × ℚ))
  | [] => some []
  | s :: rest =>
    match key_score current s, score_songs current rest with
    | some q, some tl => some ((s, q) :: tl)
    | _, _ => none

/-- The tie-break loop over `sorted_songs[1:]` (lines 133-145); `tops`
is `top_candidates`.  Each candidate similarity is compared against the
`key_compatibility_score` of the head — that is the code as written.  An
empty `tops` would subscript out of range (`none`, unreachable in
practice); `Except`-style `none` also propagates a ZeroDivisionError
from the similarity computation. -/
def top_candidates_loop (cosine : List ℚ → List ℚ → ℚ) (current : Track) :
    List (Track × ℚ) → List (Track × ℚ) → Option (List (Track × ℚ))
  | tops, [] => some tops
  | tops, c :: rest =>
    match tops with
    | [] => none
    | t0 :: _ =>
      if c.2 = t0.2 then
        match similarity_score cosine current c.1 with
        | none => none
        | some sim =>
          if sim > t0.2 then top_candidates_loop cosine current [c] rest
          else if sim = t0.2 then top_candidates_loop cosine current (tops ++ [c]) rest
          else top_candidates_loop cosine current tops rest
      else some tops

/-- The tempo-window filter of `select_next_song` (lines 120-123). -/
def filtered_songs (current_song : Track) (remaining : List Track)
    (bpm_range : ℚ) : List Track :=
  remaining.filter fun song =>
    decide (current_song.tempo * (1 - bpm_range) ≤ song.tempo ∧
            song.tempo ≤ current_song.tempo * (1 + bpm_range))

/-- Python `sorted(filtered_songs, key=..., reverse=True)`: a stable
descending sort on the stored scores (lines 129-130). -/
def sorted_songs (scored : List (Track × ℚ)) : List (Track × ℚ) :=
  scored.mergeSort fun x y => decide (y.2 ≤ x.2)

/-- One iteration of the `while` body of `Playlist.select_next_song`
(lines 115-154).  `random.choice` is the abstract `choose`; `none`
means an exception escaped (IndexError on an empty setlist, a key
TypeError, or a ZeroDivisionError).  Returns the updated
`(setlist, remaining_tracks, bpm_range)` triple. -/
def select_next_step (cosine : List ℚ → List ℚ → ℚ) (choose : List Track → Track)
    (setlist remaining : List Track) (bpm_range : ℚ) :
    Option (List Track × List Track × ℚ) :=
  match setlist.getLast? with
  | none => none
  | some current_song =>
    match score_songs current_song (filtered_songs current_song remaining bpm_range) with
    | none => none
    | some scored =>
      match sorted_songs scored with
      | [] => some (setlist, remaining, 8/100)
      | s0 :: stail =>
        match top_candidates_loop cosine current_song [s0] stail with
        | none => none
        | some tops =>
          match tops.map Prod.fst with
          | [] => some (setlist, remaining, bpm_range)
          | t :: ts =>
            some (setlist ++ [choose (t :: ts)],
                  remaining.erase (choose (t :: ts)), bpm_range)

/-- Observable outcome of running the `while` loop under a fuel bound:
`timeout` means the given number of iterations did not suffice (for
every fuel value, the loop truly diverges), `crashed` means an
exception escaped, `finished` is a normal return. -/
inductive RunOutcome
  | timeout
  | crashed
  | finished (setlist remaining : List Track)
deriving DecidableEq, Repr

/-- The method `Playlist.select_next_song` (lines 114-156): the `while
remaining_tracks and len(setlist) < max_songs` loop, with explicit
fuel. -/
def select_next_song (cosine : List ℚ → List ℚ → ℚ) (choose : List Track → Track)
    (max_songs : ℕ) : ℕ → List Track → List Track → ℚ → RunOutcome
  | 0, _, _, _ => RunOutcome.timeout
  | fuel + 1, setlist, remaining, bpm_range =>
    if remaining ≠ [] ∧ setlist.length < max_songs then
      match select_next_step cosine choose setlist remaining bpm_range with
      | none => RunOutcome.crashed
      | some (s, r, b) => select_next_song cosine choose max_songs fuel s r b
    else RunOutcome.finished setlist remaining

/-- Python list-prefix test on characters, used for the substring
check. -/
def charsPre : List Char → List Char → Bool
  | [], _ => true
  | _ :: _, [] => false
  | a :: as, b :: bs => a = b && charsPre as bs

/-- Python `needle in haystack` on strings, as character lists. -/
def charsSub (needle : List Char) : List Char → Bool
  | [] => needle.isEmpty
  | c :: t => charsPre needle (c :: t) || charsSub needle t

/-- The lowercased string a hint is matched against in
`select_first_song` (line 95): the track name, a dash, then the comma
separated artist names. -/
def full_song_string (t : Track) : String :=
  t.track_name.toLower ++ " - " ++
    String.intercalate (", ") (t.artists.map fun a => a.1.toLower)

/-- Does a hint select a track?  Case-insensitive substring test of the
generator expression in `select_first_song`. -/
def hint_matches (hint : String) (t : Track) : Bool :=
  charsSub hint.toLower.data (full_song_string t).data

/-- The random branch of `select_first_song`: `random.choice(tracks)`
raises IndexError on an empty pool. -/
def random_first (choose : List Track → Track) (tracks : List Track) :
    Except String (List Track × List Track) :=
  match tracks with
  | [] => Except.error ("IndexError: cannot choose from an empty sequence")
  | _ :: _ => Except.ok ([choose tracks], tracks.erase (choose tracks))

/-- The `try`-block body of the CLI `Playlist.select_first_song`
(setlist_generator.py lines 91-103); it is also, verbatim, the whole
streamlit `Playlist.select_first_song` (streamlit_app.py lines 81-93),
which has no handler around it.  An empty hint string is falsy in
Python and selects the random branch.  `Except.error` is a raised
exception (the not-found ValueError, or IndexError). -/
def first_song_try (choose : List Track → Track) (tracks : List Track)
    (first_song : Option String) : Except String (List Track × List Track) :=
  match first_song with
  | some hint =>
    if hint.isEmpty then random_first choose tracks
    else
      match tracks.find? (fun t => hint_matches hint t) with
      | none =>
        Except.error ("Specified song not found in the playlist. Try using just the song name or choose a random song.")
      | some t => Except.ok ([t], tracks.erase t)
  | none => random_first choose tracks

/-- The CLI `Playlist.select_first_song` with its
`except Exception` handler (lines 89-112): on any exception it prints
the message, reads one user response, and recurses — with `None` when
the response is the string random, otherwise with the response as the new
hint.  `inputs` models the stream of `input()` responses; the outer
`none` means the stream is exhausted (the real program would block on
`input()`).  The inner `Except.error` would be an exception reaching
the caller; the handler catches every exception, so it is in fact never
produced. -/
def select_first_song (choose : List Track → Track) (tracks : List Track) :
    Option String → List String → Option (Except String (List Track × List Track))
  | first_song, inputs =>
    match first_song_try choose tracks first_song with
    | Except.ok r => some (Except.ok r)
    | Except.error _ =>
      match inputs with
      | [] => none
      | response :: rest =>
        if response.toLower = "random" then select_first_song choose tracks none rest
        else select_first_song choose tracks (some response) rest

/-! Concrete tracks used by the counterexamples and witnesses.  All
audio-descriptor features are identical across them, so any cosine
similarity function assigns every pair of them the same value; the
mathematical cosine of two identical non-zero vectors is exactly 1,
which `cosineOne` models. -/

/-- Fields in order: track_id, track_name, artists, tempo, speechiness,
acousticness, instrumentalness, liveness, valence, camelot_key. -/
def trackCur : Track :=
  ⟨0, "cur", [("x", ["house"])], 120, 1/10, 1/10, 1/10, 1/10, 1/10, some ("8A")⟩

/-- Same features and key as `trackCur`; genres disjoint from it. -/
def trackA : Track :=
  ⟨1, "alpha", [("y", ["techno"])], 120, 1/10, 1/10, 1/10, 1/10, 1/10, some ("8A")⟩

/-- Same features and key as `trackCur`; genres half-overlapping it. -/
def trackB : Track :=
  ⟨2, "beta", [("z", ["house", "techno"])], 120, 1/10, 1/10, 1/10, 1/10, 1/10, some ("8A")⟩

/-- A track far outside every tempo window around 120 BPM. -/
def trackFar : Track :=
  ⟨3, "far", [("w", ["house"])], 200, 1/10, 1/10, 1/10, 1/10, 1/10, some ("8A")⟩

/-- A track none of whose artists carries any genre tag. -/
def trackNoGenre1 : Track :=
  ⟨4, "nogenre one", [("x", [])], 120, 1/10, 1/10, 1/10, 1/10, 1/10, some ("8A")⟩

/-- A second track without genre tags. -/
def trackNoGenre2 : Track :=
  ⟨5, "nogenre two", [("y", [])], 120, 1/10, 1/10, 1/10, 1/10, 1/10, some ("9A")⟩

/-- The cosine-similarity collaborator instantiated at the value it
takes on identical non-zero vectors. -/
def cosineOne : List ℚ → List ℚ → ℚ := fun _ _ => 1

/-- A concrete choice function (`random.choice` is deterministic on a
one-element list, which is the only way the counterexamples use it). -/
def chooseHead : List Track → Track := fun l => l.headD trackCur

/-- The not-found message of `select_first_song`. -/
def notFoundMsg : String :=
  "Specified song not found in the playlist. Try using just the song name or choose a random song."

/-- A successful association-list lookup means the looked-up key occurs
among the stored keys. -/
theorem lookup_key_mem {α β : Type} [BEq α] [LawfulBEq α] :
    ∀ (l : List (α × β)) (a : α), (List.lookup a l).isSome = true →
      a ∈ l.map Prod.fst := by
  intro l
  induction l with
  | nil => intro a h; simp [List.lookup] at h
  | cons p rest ih =>
    intro a h
    rcases p with ⟨k, b⟩
    rw [List.lookup] at h
    by_cases hk : a == k
    · simp only [List.map_cons]
      have : a = k := eq_of_beq hk
      exact this ▸ List.mem_cons_self _ _
    · rw [Bool.not_eq_true] at hk
      rw [hk] at h
      exact List.mem_cons_of_mem _ (ih a h)

/-- C3: for every pair of valid wheel labels, the code function
`calculate_key_compatibility_score` returns exactly the value of the
six-rule, first-match-wins cascade of the spec, and that value lies in
{1.0, 0.9, 0.8, 0.7, 0.6, 0.0}. -/
theorem C3_compatibility_matches_spec_rules :
    ∀ a ∈ validCamelotKeys, ∀ b ∈ validCamelotKeys,
      calculate_key_compatibility_score (some a) (some b) =
        some (compatibility_spec a b) ∧
      compatibility_spec a b ∈ [1, 9/10, 8/10, 7/10, 6/10, (0 : ℚ)] := by
  with_unfolding_all decide

/-- Witness for C3 at the concrete pair ("8A", "3B"). -/
theorem C3_compatibility_matches_spec_rules_witness :
    calculate_key_compatibility_score (some ("8A")) (some ("3B")) =
      some (compatibility_spec ("8A") ("3B")) ∧
    compatibility_spec ("8A") ("3B") ∈ [1, 9/10, 8/10, 7/10, 6/10, (0 : ℚ)] :=
  C3_compatibility_matches_spec_rules ("8A") (by decide) ("3B") (by decide)

/-- C6: the key-compatibility score is symmetric on all pairs of valid
wheel labels. -/
theorem C6_compatibility_symmetric :
    ∀ a ∈ validCamelotKeys, ∀ b ∈ validCamelotKeys,
      calculate_key_compatibility_score (some a) (some b) =
        calculate_key_compatibility_score (some b) (some a) := by
  with_unfolding_all decide

/-- Witness for C6 at the concrete pair ("8A", "1B"). -/
theorem C6_compatibility_symmetric_witness :
    calculate_key_compatibility_score (some ("8A")) (some ("1B")) =
      calculate_key_compatibility_score (some ("1B")) (some ("8A")) :=
  C6_compatibility_symmetric ("8A") (by decide) ("1B") (by decide)

/-- C10: the parallel-key branch is dead on valid labels: the score
0.6 is never returned, and the actual range is
{1.0, 0.9, 0.8, 0.7, 0}. -/
theorem C10_parallel_branch_unreachable :
    ∀ a ∈ validCamelotKeys, ∀ b ∈ validCamelotKeys,
      calculate_key_compatibility_score (some a) (some b) ≠ some (6/10) ∧
      calculate_key_compatibility_score (some a) (some b) ∈
        [some 1, some (9/10), some (8/10), some (7/10), some (0 : ℚ)] := by
  with_unfolding_all decide

/-- Witness for C10 at the concrete pair ("8A", "8B"). -/
theorem C10_parallel_branch_unreachable_witness :
    calculate_key_compatibility_score (some ("8A")) (some ("8B")) ≠ some (6/10) ∧
    calculate_key_compatibility_score (some ("8A")) (some ("8B")) ∈
      [some 1, some (9/10), some (8/10), some (7/10), some (0 : ℚ)] :=
  C10_parallel_branch_unreachable ("8A") (by decide) ("8B") (by decide)

/-- C4 counterexample: at the out-of-range input (12, 0) the code does
not fail at all — `camelot_map.get((key, mode), None)` returns the
default `None` and the method returns normally. -/
theorem C4_counterexample_returns_none :
    calculate_camelot_key_run 12 0 = Except.ok none ∧
    calculate_camelot_key_run 12 0 ≠ Except.error InvalidKeyError.invalidKey := by
  decide

/-- C4 amended: the mapping is defined on all 24 valid (pitch class,
mode) pairs, and on every input outside them it returns normally with
no notation (`None`) instead of raising anything. -/
theorem C4_total_on_valid_none_otherwise :
    (∀ key mode : ℤ, 0 ≤ key → key ≤ 11 → (mode = 0 ∨ mode = 1) →
      (calculate_camelot_key key mode).isSome = true) ∧
    (∀ key mode : ℤ, ¬(0 ≤ key ∧ key ≤ 11 ∧ (mode = 0 ∨ mode = 1)) →
      calculate_camelot_key_run key mode = Except.ok none) := by
  constructor
  · intro key mode h0 h11 hm
    interval_cases key <;> rcases hm with rfl | rfl <;> decide
  · intro key mode h
    rw [calculate_camelot_key_run]
    cases hl : calculate_camelot_key key mode with
    | none => rfl
    | some s =>
      exfalso
      have hmem : (key, mode) ∈ camelot_map.map Prod.fst := by
        apply lookup_key_mem
        rw [calculate_camelot_key] at hl
        rw [hl]
        rfl
      simp only [camelot_map, List.map_cons, List.map_nil, List.mem_cons,
        List.not_mem_nil, or_false, Prod.mk.injEq] at hmem
      omega

/-- Witness for C4 at the valid input (5, 1) and the invalid input
(12, 0). -/
theorem C4_total_on_valid_none_otherwise_witness :
    (calculate_camelot_key 5 1).isSome = true ∧
    calculate_camelot_key_run 12 0 = Except.ok none :=
  ⟨C4_total_on_valid_none_otherwise.1 5 1 (by decide) (by decide) (Or.inr rfl),
   C4_total_on_valid_none_otherwise.2 12 0 (by decide)⟩

/-- C7: the table is neither injective nor onto the 24 labels: the two
distinct valid inputs (1, major) and (3, major) both map to "3B", and
the label "5B" is never produced.  (Every other entry agrees with the
standard wheel, whose pitch class 3 major entry is 5B.) -/
theorem C7_table_not_injective :
    calculate_camelot_key 1 1 = some ("3B") ∧
    calculate_camelot_key 3 1 = some ("3B") ∧
    "5B" ∉ camelot_map.map Prod.snd := by
  decide

/-- C5: with both genre-tag sets empty the genre-similarity computation
does not return 0 — the code divides by the size of the empty union and
raises ZeroDivisionError, for every cosine collaborator. -/
theorem C5_empty_genres_divide_by_zero :
    ∀ cosine : List ℚ → List ℚ → ℚ,
      track_genres trackNoGenre1 = ∅ ∧ track_genres trackNoGenre2 = ∅ ∧
      calculate_similarity_scores cosine trackNoGenre1 trackNoGenre2 = none := by
  intro cosine
  have h1 : track_genres trackNoGenre1 = ∅ := by decide
  have h2 : track_genres trackNoGenre2 = ∅ := by decide
  refine ⟨h1, h2, ?_⟩
  rw [calculate_similarity_scores, h1, h2]
  simp

/-- C1: failing input for the tie-break.  Both `trackA` and `trackB`
are tied with the current track at key-compatibility 1.0; the
secondary similarity 19/20 of `trackB` strictly exceeds the 9/10 of
`trackA`, yet the
loop compares each similarity against the key-compatibility score 1.0
instead of against the best similarity so far, drops `trackB`, and the
step deterministically places `trackA` — not a track of maximal
secondary score, and not a uniform choice among equal-secondary
candidates. -/
theorem C1_tie_break_ignores_secondary :
    key_score trackCur trackA = some 1 ∧
    key_score trackCur trackB = some 1 ∧
    similarity_score cosineOne trackCur trackA = some (9/10) ∧
    similarity_score cosineOne trackCur trackB = some (19/20) ∧
    top_candidates_loop cosineOne trackCur [(trackA, 1)] [(trackB, 1)] =
      some [(trackA, 1)] ∧
    select_next_step cosineOne chooseHead [trackCur] [trackA, trackB] (5/100) =
      some ([trackCur, trackA], [trackB], 5/100) := by
  with_unfolding_all decide

/-- With the only pool track at 200 BPM and the current track at 120,
the 0.05 window [114, 126] is empty, so an iteration only escalates the
window fraction to 0.08 and touches neither list. -/
theorem step_far_escalates :
    ∀ (cosine : List ℚ → List ℚ → ℚ) (choose : List Track → Track),
      select_next_step cosine choose [trackCur] [trackFar] (5/100) =
        some ([trackCur], [trackFar], 8/100) := by
  intro cosine choose
  with_unfolding_all rfl

/-- At fraction 0.08 the window [110.4, 129.6] is still empty, so the
iteration is a fixpoint of the loop state. -/
theorem step_far_fixpoint :
    ∀ (cosine : List ℚ → List ℚ → ℚ) (choose : List Track → Track),
      select_next_step cosine choose [trackCur] [trackFar] (8/100) =
        some ([trackCur], [trackFar], 8/100) := by
  intro cosine choose
  with_unfolding_all rfl

/-- From the escalated state the loop can never leave: every fuel bound
is exhausted. -/
theorem loop_far_timeout :
    ∀ (cosine : List ℚ → List ℚ → ℚ) (choose : List Track → Track) (fuel : ℕ),
      select_next_song cosine choose 30 fuel [trackCur] [trackFar] (8/100) =
        RunOutcome.timeout := by
  intro cosine choose fuel
  induction fuel with
  | zero => rfl
  | succ n ih =>
    rw [select_next_song, if_pos (by decide), step_far_fixpoint]
    exact ih

/-- C2: for a pool whose only track lies outside the tempo window even
after escalation to 0.08, `select_next_song` does not return the
opener-only setlist — it never returns at all: for every fuel bound,
every cosine collaborator and every choice function, the loop times
out.  The code reacts to an empty filtered set with `bpm_range = 0.08`
followed by an unconditional retry; no `None`-return path exists. -/
theorem C2_empty_window_never_terminates :
    ∀ (cosine : List ℚ → List ℚ → ℚ) (choose : List Track → Track) (fuel : ℕ),
      select_next_song cosine choose 30 fuel [trackCur] [trackFar] (5/100) =
        RunOutcome.timeout := by
  intro cosine choose fuel
  cases fuel with
  | zero => rfl
  | succ n =>
    rw [select_next_song, if_pos (by decide), step_far_escalates]
    exact loop_far_timeout cosine choose n

/-- The scoring pass preserves the candidate list: on success the
scored list projects back to exactly its input. -/
theorem score_songs_fst (current : Track) :
    ∀ (l : List Track) (out : List (Track × ℚ)),
      score_songs current l = some out → out.map Prod.fst = l := by
  intro l
  induction l with
  | nil =>
    intro out h
    rw [score_songs] at h
    cases h
    rfl
  | cons s rest ih =>
    intro out h
    rw [score_songs] at h
    cases hk : key_score current s with
    | none => rw [hk] at h; exact absurd h (by simp)
    | some q =>
      cases hr : score_songs current rest with
      | none => rw [hk, hr] at h; exact absurd h (by simp)
      | some tl =>
        rw [hk, hr] at h
        cases h
        simp [ih tl hr]

/-- Whatever the tie-break loop returns is drawn from its initial
`top_candidates` or from the not-yet-visited sorted candidates. -/
theorem top_candidates_loop_subset (cosine : List ℚ → List ℚ → ℚ) (current : Track) :
    ∀ (rest tops out : List (Track × ℚ)),
      top_candidates_loop cosine current tops rest = some out →
      ∀ x ∈ out, x ∈ tops ∨ x ∈ rest := by
  intro rest
  induction rest with
  | nil =>
    intro tops out h x hx
    simp only [top_candidates_loop] at h
    cases h
    exact Or.inl hx
  | cons c rs ih =>
    intro tops out h x hx
    simp only [top_candidates_loop] at h
    cases tops with
    | nil => exact absurd h (by simp)
    | cons t0 ts =>
      dsimp only at h
      by_cases hc : c.2 = t0.2
      · rw [if_pos hc] at h
        cases hs : similarity_score cosine current c.1 with
        | none => rw [hs] at h; exact absurd h (by simp)
        | some sim =>
          rw [hs] at h
          dsimp only at h
          by_cases h1 : sim > t0.2
          · rw [if_pos h1] at h
            rcases ih _ _ h x hx with h2 | h2
            · rcases List.mem_singleton.mp h2 with rfl
              exact Or.inr (List.mem_cons_self _ _)
            · exact Or.inr (List.mem_cons_of_mem _ h2)
          · rw [if_neg h1] at h
            by_cases h2 : sim = t0.2
            · rw [if_pos h2] at h
              rcases ih _ _ h x hx with h3 | h3
              · rcases List.mem_append.mp h3 with h4 | h4
                · exact Or.inl h4
                · rcases List.mem_singleton.mp h4 with rfl
                  exact Or.inr (List.mem_cons_self _ _)
              · exact Or.inr (List.mem_cons_of_mem _ h3)
            · rw [if_neg h2] at h
              rcases ih _ _ h x hx with h3 | h3
              · exact Or.inl h3
              · exact Or.inr (List.mem_cons_of_mem _ h3)
      · rw [if_neg hc] at h
        cases h
        exact Or.inl hx

/-- A successful random pick moves one pool member to a fresh
singleton setlist, erasing it from the pool exactly once. -/
theorem random_first_ok (choose : List Track → Track)
    (hchoose : ∀ l : List Track, l ≠ [] → choose l ∈ l) :
    ∀ (tracks sl rem : List Track),
      random_first choose tracks = Except.ok (sl, rem) →
      ∃ t ∈ tracks, sl = [t] ∧ rem = tracks.erase t ∧ (sl ++ rem).Perm tracks := by
  intro tracks sl rem h
  cases tracks with
  | nil => exact absurd h (by simp [random_first])
  | cons a as =>
    simp only [random_first] at h
    cases h
    refine ⟨choose (a :: as), hchoose _ (by simp), rfl, rfl, ?_⟩
    exact (List.perm_cons_erase (hchoose _ (by simp))).symm

/-- C9: every successful iteration of the selection loop either leaves
the setlist/pool pair untouched (window escalation) or moves exactly
one track, atomically, from the pool to the end of the setlist; under
a duplicate-free start the two therefore stay disjoint and jointly a
permutation of the original pool.  Likewise the opener selection
returns a single track removed from the pool exactly once. -/
theorem C9_pool_setlist_ownership :
    (∀ (cosine : List ℚ → List ℚ → ℚ) (choose : List Track → Track),
      (∀ l : List Track, l ≠ [] → choose l ∈ l) →
      ∀ (setlist remaining : List Track) (bpm : ℚ) s r b,
        select_next_step cosine choose setlist remaining bpm = some (s, r, b) →
        ((s = setlist ∧ r = remaining) ∨
          ∃ t ∈ remaining, s = setlist ++ [t] ∧ r = remaining.erase t) ∧
        ((setlist ++ remaining).Nodup →
          (s ++ r).Perm (setlist ++ remaining) ∧ ∀ x ∈ s, x ∉ r)) ∧
    (∀ choose : List Track → Track,
      (∀ l : List Track, l ≠ [] → choose l ∈ l) →
      ∀ (tracks : List Track) (hint : Option String) sl rem,
        first_song_try choose tracks hint = Except.ok (sl, rem) →
        ∃ t ∈ tracks, sl = [t] ∧ rem = tracks.erase t ∧ (sl ++ rem).Perm tracks) := by
  constructor
  · intro cosine choose hchoose setlist remaining bpm s r b hstep
    have hmove : (s = setlist ∧ r = remaining) ∨
        ∃ t ∈ remaining, s = setlist ++ [t] ∧ r = remaining.erase t := by
      rw [select_next_step] at hstep
      split at hstep
      · exact absurd hstep (by simp)
      · rename_i current hL
        split at hstep
        · exact absurd hstep (by simp)
        · rename_i scored hS
          split at hstep
          · cases hstep
            exact Or.inl ⟨rfl, rfl⟩
          · rename_i s0 stail hSort
            split at hstep
            · exact absurd hstep (by simp)
            · rename_i tops hT
              split at hstep
              · cases hstep
                exact Or.inl ⟨rfl, rfl⟩
              · rename_i t ts hM
                cases hstep
                refine Or.inr ⟨choose (t :: ts), ?_, rfl, rfl⟩
                have hch : choose (t :: ts) ∈ t :: ts := hchoose _ (by simp)
                rw [← hM] at hch
                rcases List.mem_map.mp hch with ⟨p, hp, hpe⟩
                have hp2 : p ∈ sorted_songs scored := by
                  rw [hSort]
                  rcases top_candidates_loop_subset cosine current stail [s0] tops hT p hp with
                    h1 | h1
                  · rcases List.mem_singleton.mp h1 with rfl
                    exact List.mem_cons_self _ _
                  · exact List.mem_cons_of_mem _ h1
                have hp3 : p ∈ scored := by
                  rw [sorted_songs] at hp2
                  exact List.mem_mergeSort.mp hp2
                have hp4 : p.1 ∈ filtered_songs current remaining bpm := by
                  rw [← score_songs_fst current _ scored hS]
                  exact List.mem_map_of_mem Prod.fst hp3
                rw [hM] at hpe
                rw [← hpe]
                exact List.mem_of_mem_filter hp4
    refine ⟨hmove, fun hnd => ?_⟩
    have hperm : (s ++ r).Perm (setlist ++ remaining) := by
      rcases hmove with ⟨rfl, rfl⟩ | ⟨t, ht, rfl, rfl⟩
      · exact List.Perm.refl _
      · have h1 : ([t] ++ remaining.erase t).Perm remaining :=
          (List.perm_cons_erase ht).symm
        have h2 : (setlist ++ ([t] ++ remaining.erase t)).Perm (setlist ++ remaining) :=
          List.Perm.append_left setlist h1
        rw [List.append_assoc]
        exact h2
    have hnd' : (s ++ r).Nodup := (hperm.nodup_iff).mpr hnd
    exact ⟨hperm, fun x hx => (List.nodup_append.mp hnd').2.2 hx⟩
  · intro choose hchoose tracks hint sl rem h
    cases hint with
    | none =>
      rw [first_song_try] at h
      exact random_first_ok choose hchoose tracks sl rem h
    | some hi =>
      rw [first_song_try] at h
      by_cases he : hi.isEmpty
      · rw [if_pos he] at h
        exact random_first_ok choose hchoose tracks sl rem h
      · rw [if_neg he] at h
        cases hf : tracks.find? (fun t => hint_matches hi t) with
        | none => rw [hf] at h; exact absurd h (by simp)
        | some t =>
          rw [hf] at h
          cases h
          have ht : t ∈ tracks := List.mem_of_find?_eq_some hf
          exact ⟨t, ht, rfl, rfl, (List.perm_cons_erase ht).symm⟩

/-- Witness for C9: the concrete step moving `trackA` out of a
one-track pool. -/
theorem C9_pool_setlist_ownership_witness :
    (([trackCur, trackA] = [trackCur] ∧ ([] : List Track) = [trackA]) ∨
      ∃ t ∈ [trackA], [trackCur, trackA] = [trackCur] ++ [t] ∧
        ([] : List Track) = [trackA].erase t) ∧
    (([trackCur] ++ [trackA]).Nodup →
      (([trackCur, trackA] ++ ([] : List Track)).Perm ([trackCur] ++ [trackA]) ∧
        ∀ x ∈ [trackCur, trackA], x ∉ ([] : List Track))) :=
  C9_pool_setlist_ownership.1 cosineOne chooseHead
    (fun l hl => by
      cases l with
      | nil => exact absurd rfl hl
      | cons a as => exact List.mem_cons_self _ _)
    [trackCur] [trackA] (5/100) [trackCur, trackA] [] (5/100)
    (by with_unfolding_all decide)

/-- C8 counterexample: in the CLI generator a hint matching no track
does not surface any error to the caller — `select_first_song` raises
the not-found ValueError inside the `try`, catches it itself, consumes
the next interactive response ("random") and returns a normal result. -/
theorem C8_error_not_surfaced_counterexample :
    first_song_try chooseHead [trackA] (some ("zzz")) = Except.error notFoundMsg ∧
    select_first_song chooseHead [trackA] (some ("zzz")) ["random"] =
      some (Except.ok ([trackA], [])) := by
  with_unfolding_all decide

/-- C8 amended: a hint that matches no track raises the not-found
ValueError inside the operation; the streamlit variant — whose
`select_first_song` is exactly this try-body — propagates it to its
caller, while the CLI variant catches every exception internally and
re-prompts, so its caller never receives an error value. -/
theorem C8_not_found_handling :
    (∀ (choose : List Track → Track) (tracks : List Track) (hint : String),
      hint.isEmpty = false →
      (∀ t ∈ tracks, hint_matches hint t = false) →
      first_song_try choose tracks (some hint) = Except.error notFoundMsg) ∧
    (∀ (choose : List Track → Track) (tracks : List Track)
      (hint : Option String) (inputs : List String) (e : String),
      select_first_song choose tracks hint inputs ≠ some (Except.error e)) := by
  constructor
  · intro choose tracks hint he hm
    rw [first_song_try]
    rw [if_neg (by rw [he]; exact Bool.false_ne_true)]
    have hf : tracks.find? (fun t => hint_matches hint t) = none :=
      List.find?_eq_none.mpr fun t ht => by rw [hm t ht]; exact Bool.false_ne_true
    rw [hf]
    rfl
  · intro choose tracks hint inputs e
    induction inputs generalizing hint with
    | nil =>
      intro h
      rw [select_first_song] at h
      cases hb : first_song_try choose tracks hint with
      | ok v => rw [hb] at h; exact absurd h (by simp)
      | error m => rw [hb] at h; exact absurd h (by simp)
    | cons response rest ih =>
      intro h
      rw [select_first_song] at h
      cases hb : first_song_try choose tracks hint with
      | ok v => rw [hb] at h; exact absurd h (by simp)
      | error m =>
        rw [hb] at h
        by_cases hr : response.toLower = "random"
        · rw [if_pos hr] at h
          exact ih none h
        · rw [if_neg hr] at h
          exact ih (some response) h

/-- Witness for C8: the raised error and the swallowed error at a
concrete non-matching hint. -/
theorem C8_not_found_handling_witness :
    first_song_try chooseHead [trackA] (some ("qqq")) = Except.error notFoundMsg ∧
    select_first_song chooseHead [trackA] (some ("qqq")) [] ≠
      some (Except.error notFoundMsg) :=
  ⟨C8_not_found_handling.1 chooseHead [trackA] ("qqq") (by decide)
      (by with_unfolding_all decide),
   C8_not_found_handling.2 chooseHead [trackA] (some ("qqq")) [] notFoundMsg⟩

end Setlist
